import Mathlib

/-!
Shallow embedding of `pubmed_search_mcp_server.py`: a PubMed search MCP
server consisting of a query builder, a search/fetch pipeline and an XML
article-detail parser.
-/

/-- An XML element: tag, attributes, text content and child elements.
Models the `xml.etree.ElementTree` element type used by the source. -/
inductive XML where
  | elem (tag : String) (attrs : List (String × String)) (text : Option String)
      (children : List XML)

def XML.tag : XML → String
  | .elem t _ _ _ => t

def XML.attrs : XML → List (String × String)
  | .elem _ a _ _ => a

def XML.text : XML → Option String
  | .elem _ _ s _ => s

def XML.children : XML → List XML
  | .elem _ _ _ c => c

mutual

/-- An element followed by all its descendants in document order. -/
def XML.selfDesc : XML → List XML
  | .elem t a s c => .elem t a s c :: listDesc c

/-- All elements of a forest in document order: each element precedes its
descendants, siblings appear left to right.  `listDesc x.children` is the
list of proper descendants of `x`, which is what an ElementTree `.//`
step ranges over. -/
def listDesc : List XML → List XML
  | [] => []
  | x :: xs => XML.selfDesc x ++ listDesc xs

end

/-- One step of an ElementTree path: a tag, optionally refined by an
attribute equality predicate such as the doi filter `[@EIdType=doi]`. -/
structure Seg where
  tag : String
  attrFilter : Option (String × String)

def seg (t : String) : Seg := ⟨t, none⟩

def segMatches (s : Seg) (x : XML) : Bool :=
  s.tag == x.tag &&
    match s.attrFilter with
    | none => true
    | some (k, v) => x.attrs.lookup k == some v

/-- ElementTree `findall` for a relative path of the shape
`.//seg1/seg2/...`: the first step ranges over all proper descendants in
document order, each later step over the children of the previous
matches. -/
def findall (x : XML) (p : List Seg) : List XML :=
  match p with
  | [] => []
  | s :: rest =>
    rest.foldl
      (fun acc sg => (acc.map (fun e => e.children.filter (segMatches sg))).flatten)
      ((listDesc x.children).filter (segMatches s))

def textOrEmpty (x : XML) : String := x.text.getD ""

/-- ElementTree `findtext` on a `.//` path: the text of the first matching
element (the empty string when that element has no text), or the default
when nothing matches. -/
def findtext (x : XML) (p : List Seg) (dflt : String) : String :=
  match (findall x p).head? with
  | none => dflt
  | some el => textOrEmpty el

/-- ElementTree `findtext` on a plain child-tag path, as the source uses
for the `LastName` and `Initials` lookups inside an `Author` element. -/
def findtextChild (x : XML) (t : String) (dflt : String) : String :=
  match (x.children.filter (fun c => c.tag == t)).head? with
  | none => dflt
  | some el => textOrEmpty el

def pmidPath : List Seg := [seg "PMID"]

def titlePath : List Seg := [seg "ArticleTitle"]

def abstractPath : List Seg := [seg "Abstract", seg "AbstractText"]

def journalTitlePath : List Seg := [seg "Journal", seg "Title"]

def volumePath : List Seg := [seg "Journal", seg "JournalIssue", seg "Volume"]

def issuePath : List Seg := [seg "Journal", seg "JournalIssue", seg "Issue"]

def pagesPath : List Seg := [seg "Pagination", seg "MedlinePgn"]

def doiPath : List Seg := [⟨"ELocationID", some ("EIdType", "doi")⟩]

def pubdatePath : List Seg := [seg "PubDate", seg "Year"]

def authorPath : List Seg := [seg "Author"]

def articlePath : List Seg := [seg "PubmedArticle"]

/-- Python `sep.join(xs)`. -/
def strJoin (sep : String) : List String → String
  | [] => ""
  | x :: xs => xs.foldl (fun acc y => acc ++ sep ++ y) x

/-- Python `s.strip()`: remove leading and trailing whitespace. -/
def pyStrip (s : String) : String :=
  ⟨((s.data.dropWhile Char.isWhitespace).reverse.dropWhile Char.isWhitespace).reverse⟩

/-- The query construction of `search_pubmed` (source lines 38-48): a
parenthesized OR-joined author clause when authors are given, then a
parenthesized OR-joined keyword clause when keywords are given, AND-joined;
the empty string when neither is given. -/
def buildQuery (title_abstract_keywords authors : List String) : String :=
  let query_parts : List String := []
  let query_parts :=
    if authors.isEmpty then query_parts
    else query_parts ++
      ["(" ++ strJoin " OR " (authors.map (fun author => author ++ "[Author]")) ++ ")"]
  let query_parts :=
    if title_abstract_keywords.isEmpty then query_parts
    else query_parts ++
      ["(" ++ strJoin " OR "
        (title_abstract_keywords.map (fun keyword => keyword ++ "[Title/Abstract]")) ++ ")"]
  if query_parts.isEmpty then "" else strJoin " AND " query_parts

/-- The per-article dictionary built by `parse_article_details`. -/
structure ArticleRecord where
  pubmed_id : String
  link : String
  title : String
  authors : List String
  source : String
  volume : String
  issue : String
  pages : String
  doi : String
  pubdate : String
  abstract : String
deriving DecidableEq

/-- Field extraction for one article element (source lines 113-141). -/
def formatArticle (article : XML) : ArticleRecord :=
  let title := findtext article titlePath "N/A"
  let abstract := findtext article abstractPath "N/A"
  let journal := findtext article journalTitlePath "N/A"
  let volume := findtext article volumePath "N/A"
  let issue := findtext article issuePath "N/A"
  let pages := findtext article pagesPath "N/A"
  let doi := findtext article doiPath "N/A"
  let pubdate := findtext article pubdatePath "N/A"
  let authors := (findall article authorPath).foldl
    (fun acc author =>
      let lastname := findtextChild author "LastName" ""
      let initials := findtextChild author "Initials" ""
      acc ++ [pyStrip (lastname ++ " " ++ initials)]) []
  { pubmed_id := findtext article pmidPath "N/A"
    link := "https://pubmed.ncbi.nlm.nih.gov/" ++ findtext article pmidPath "N/A"
    title := title
    authors := authors
    source := journal
    volume := volume
    issue := issue
    pages := pages
    doi := doi
    pubdate := pubdate
    abstract := abstract }

/-- A fetch-response body: either well-formed XML with a given root
element, or malformed content that the XML reader rejects. -/
inductive FetchBody where
  | wellFormed (root : XML)
  | malformed (raw : String)

/-- Models `ET.fromstring`: yields the root element of well-formed content and
raises a `ParseError` on malformed content. -/
def fromstring : FetchBody → Except String XML
  | .wellFormed root => .ok root
  | .malformed _ => .error "ParseError: syntax error"

/-- The function `parse_article_details` (source lines 108-143): parse the body, collect
all `PubmedArticle` descendants of the root in document order, and format
each into a record; a parse failure propagates as an exception and yields
no records at all. -/
def parse_article_details (xml_content : FetchBody) : Except String (List ArticleRecord) :=
  match fromstring xml_content with
  | .error e => .error e
  | .ok root =>
    let articles := findall root articlePath
    .ok (articles.foldl (fun results article => results ++ [formatArticle article]) [])

/-- The dictionary returned by `search_pubmed`; `none` models an absent
key. -/
structure Envelope where
  success : Bool
  error : Option String
  results : List ArticleRecord
  total_results : Option Nat

/-- One outgoing HTTP request, recorded so theorems can speak about which
remote calls an invocation issues. -/
inductive NetCall where
  | esearch (query : String) (retmax : Int)
  | efetch (ids : List String)

/-- The remote eUtils service as seen by one invocation: the esearch step
(request, JSON decode and `idlist` extraction, any of which may raise) and
the efetch step (request, which may raise; a delivered body may still be
malformed XML). -/
structure Remote where
  esearchResult : String → Int → Except String (List String)
  efetchResult : List String → Except String FetchBody

/-- The function `format_paper_details` (source lines 85-106): one efetch request with
the requested ids, then parse; network and parse errors propagate
uncaught. -/
def format_paper_details (remote : Remote) (pubmed_ids : List String) :
    Except String (List ArticleRecord) :=
  match remote.efetchResult pubmed_ids with
  | .error e => .error e
  | .ok body => parse_article_details body

/-- The function `search_pubmed` (source lines 19-83), paired with the list of remote
requests the invocation issues. -/
def search_pubmed (remote : Remote) (title_abstract_keywords authors : List String)
    (num_results : Int) : Envelope × List NetCall :=
  let query := buildQuery title_abstract_keywords authors
  if query = "" then
    ({ success := false
       error := some "No search parameters provided. Please specify authors or keywords."
       results := []
       total_results := none }, [])
  else
    match remote.esearchResult query num_results with
    | .error e =>
      ({ success := false, error := some e, results := [], total_results := none },
        [NetCall.esearch query num_results])
    | .ok pmids =>
      match format_paper_details remote pmids with
      | .error e =>
        ({ success := false, error := some e, results := [], total_results := none },
          [NetCall.esearch query num_results, NetCall.efetch pmids])
      | .ok formatted_results =>
        ({ success := true
           error := none
           results := formatted_results
           total_results := some pmids.length },
          [NetCall.esearch query num_results, NetCall.efetch pmids])

theorem foldl_push_eq_map {α β : Type} (f : α → β) (l : List α) (acc : List β) :
    l.foldl (fun r a => r ++ [f a]) acc = acc ++ l.map f := by
  induction l generalizing acc with
  | nil => simp
  | cons x xs ih => simp [List.foldl, ih]

/-- C1: with non-empty author and keyword lists the built query is the
parenthesized OR-join of the authors tagged `[Author]`, then " AND ", then
the parenthesized OR-join of the keywords tagged `[Title/Abstract]`; with
authors alone it is just the parenthesized author clause. -/
theorem query_structure (keywords authors : List String) (ha : authors ≠ []) :
    (keywords ≠ [] →
      buildQuery keywords authors =
        "(" ++ strJoin " OR " (authors.map (fun author => author ++ "[Author]")) ++ ")" ++
          " AND " ++
          ("(" ++ strJoin " OR "
            (keywords.map (fun keyword => keyword ++ "[Title/Abstract]")) ++ ")")) ∧
    (keywords = [] →
      buildQuery keywords authors =
        "(" ++ strJoin " OR " (authors.map (fun author => author ++ "[Author]")) ++ ")") := by
  constructor
  · intro hk
    cases authors with
    | nil => exact absurd rfl ha
    | cons a as =>
      cases keywords with
      | nil => exact absurd rfl hk
      | cons k ks => rfl
  · intro hk
    subst hk
    cases authors with
    | nil => exact absurd rfl ha
    | cons a as => rfl

/-- C1 witness: the two concrete spec examples. -/
theorem query_structure_witness :
    buildQuery ["cancer"] ["Doe JP"] = "(Doe JP[Author]) AND (cancer[Title/Abstract])" ∧
    buildQuery [] ["Doe JP", "Smith A"] = "(Doe JP[Author] OR Smith A[Author])" := by
  constructor
  · have h := (query_structure ["cancer"] ["Doe JP"] (by decide)).1 (by decide)
    rw [h]; rfl
  · have h := (query_structure [] ["Doe JP", "Smith A"] (by decide)).2 rfl
    rw [h]; rfl

/-- C2: with both criteria lists empty, `search_pubmed` returns the failure
envelope (success false, human-readable error, empty results, no
total-results key) and issues no remote request at all. -/
theorem empty_criteria_no_request (remote : Remote) (num_results : Int) :
    search_pubmed remote [] [] num_results =
      ({ success := false
         error := some "No search parameters provided. Please specify authors or keywords."
         results := []
         total_results := none }, []) ∧
    "No search parameters provided. Please specify authors or keywords." ≠ "" :=
  ⟨rfl, by decide⟩

/-- C3: a malformed fetch body makes `parse_article_details` raise (so no
partial records are returned), and `search_pubmed` converts the exception
into a failure envelope with a non-empty error and empty results. -/
theorem malformed_fetch_rejects (remote : Remote) (kw au pmids : List String)
    (n : Int) (raw : String)
    (hq : buildQuery kw au ≠ "")
    (hs : remote.esearchResult (buildQuery kw au) n = .ok pmids)
    (hf : remote.efetchResult pmids = .ok (.malformed raw)) :
    parse_article_details (.malformed raw) = .error "ParseError: syntax error" ∧
    (search_pubmed remote kw au n).1.success = false ∧
    (search_pubmed remote kw au n).1.error = some "ParseError: syntax error" ∧
    "ParseError: syntax error" ≠ "" ∧
    (search_pubmed remote kw au n).1.results = [] := by
  refine ⟨rfl, ?_, ?_, by decide, ?_⟩ <;>
    simp [search_pubmed, hq, hs, format_paper_details, hf, parse_article_details, fromstring]

def demoRemoteMalformed : Remote :=
  ⟨fun _ _ => .ok ["1"], fun _ => .ok (.malformed "this is not xml")⟩

/-- C3 witness: a concrete run whose fetch body is malformed. -/
theorem malformed_fetch_rejects_witness :
    (search_pubmed demoRemoteMalformed ["cancer"] [] 10).1.success = false ∧
    (search_pubmed demoRemoteMalformed ["cancer"] [] 10).1.error =
      some "ParseError: syntax error" ∧
    (search_pubmed demoRemoteMalformed ["cancer"] [] 10).1.results = [] := by
  have h := malformed_fetch_rejects demoRemoteMalformed ["cancer"] [] ["1"] 10
    "this is not xml" (by decide) rfl rfl
  exact ⟨h.2.1, h.2.2.1, h.2.2.2.2⟩

/-- C4: on a well-formed fetch document the parser returns exactly one
record per article element in document order — however many identifiers
were requested — and the success envelope reports `total_results` as the
identifier count, not the record count. -/
theorem one_record_per_article (remote : Remote) (kw au pmids : List String)
    (n : Int) (root : XML)
    (hq : buildQuery kw au ≠ "")
    (hs : remote.esearchResult (buildQuery kw au) n = .ok pmids)
    (hf : remote.efetchResult pmids = .ok (.wellFormed root)) :
    parse_article_details (.wellFormed root) =
      .ok ((findall root articlePath).map formatArticle) ∧
    (search_pubmed remote kw au n).1.results =
      (findall root articlePath).map formatArticle ∧
    (search_pubmed remote kw au n).1.results.length = (findall root articlePath).length ∧
    (search_pubmed remote kw au n).1.total_results = some pmids.length := by
  have hparse : parse_article_details (.wellFormed root) =
      .ok ((findall root articlePath).map formatArticle) := by
    simp [parse_article_details, fromstring, foldl_push_eq_map]
  refine ⟨hparse, ?_, ?_, ?_⟩ <;>
    simp [search_pubmed, hq, hs, format_paper_details, hf, hparse]

def demoRootTwoArticles : XML :=
  .elem "PubmedArticleSet" [] none
    [ .elem "PubmedArticle" [] none
        [.elem "MedlineCitation" [] none [.elem "PMID" [] (some "1") []]]
    , .elem "PubmedArticle" [] none
        [.elem "MedlineCitation" [] none [.elem "PMID" [] (some "2") []]] ]

def demoRemoteTwoArticles : Remote :=
  ⟨fun _ _ => .ok ["1", "2", "3"], fun _ => .ok (.wellFormed demoRootTwoArticles)⟩

/-- C4 witness: three identifiers, a document with only two articles. -/
theorem one_record_per_article_witness :
    (search_pubmed demoRemoteTwoArticles ["cancer"] [] 10).1.results.length = 2 ∧
    (search_pubmed demoRemoteTwoArticles ["cancer"] [] 10).1.total_results = some 3 := by
  have h := one_record_per_article demoRemoteTwoArticles ["cancer"] [] ["1", "2", "3"] 10
    demoRootTwoArticles (by decide) rfl rfl
  refine ⟨?_, h.2.2.2⟩
  rw [h.2.2.1]
  rfl

/-- C5: every string field of the record defaults to the fixed "N/A"
marker when its source path is absent from the article element, and every
field whose path is present is the text of the first matching element; in
particular an article without an `Abstract` element gets abstract "N/A". -/
theorem missing_fields_default (a : XML) :
    (findall a abstractPath = [] → (formatArticle a).abstract = "N/A") ∧
    (∀ el, (findall a abstractPath).head? = some el →
      (formatArticle a).abstract = textOrEmpty el) ∧
    (findall a titlePath = [] → (formatArticle a).title = "N/A") ∧
    (findall a journalTitlePath = [] → (formatArticle a).source = "N/A") ∧
    (findall a volumePath = [] → (formatArticle a).volume = "N/A") ∧
    (findall a issuePath = [] → (formatArticle a).issue = "N/A") ∧
    (findall a pagesPath = [] → (formatArticle a).pages = "N/A") ∧
    (findall a doiPath = [] → (formatArticle a).doi = "N/A") ∧
    (findall a pubdatePath = [] → (formatArticle a).pubdate = "N/A") ∧
    (findall a pmidPath = [] → (formatArticle a).pubmed_id = "N/A") ∧
    (∀ el, (findall a titlePath).head? = some el →
      (formatArticle a).title = textOrEmpty el) ∧
    (∀ el, (findall a journalTitlePath).head? = some el →
      (formatArticle a).source = textOrEmpty el) ∧
    (∀ el, (findall a volumePath).head? = some el →
      (formatArticle a).volume = textOrEmpty el) ∧
    (∀ el, (findall a issuePath).head? = some el →
      (formatArticle a).issue = textOrEmpty el) ∧
    (∀ el, (findall a pagesPath).head? = some el →
      (formatArticle a).pages = textOrEmpty el) ∧
    (∀ el, (findall a doiPath).head? = some el →
      (formatArticle a).doi = textOrEmpty el) ∧
    (∀ el, (findall a pubdatePath).head? = some el →
      (formatArticle a).pubdate = textOrEmpty el) ∧
    (∀ el, (findall a pmidPath).head? = some el →
      (formatArticle a).pubmed_id = textOrEmpty el) := by
  refine ⟨?_, ?_, ?_, ?_, ?_, ?_, ?_, ?_, ?_, ?_, ?_, ?_, ?_, ?_, ?_, ?_, ?_, ?_⟩ <;>
    (intros; simp [formatArticle, findtext, textOrEmpty, *])

def sampleArticle : XML :=
  .elem "PubmedArticle" [] none
    [ .elem "MedlineCitation" [] none
        [ .elem "PMID" [] (some "12345") []
        , .elem "Article" [] none
            [ .elem "ArticleTitle" [] (some "A Title") []
            , .elem "Journal" [] none
                [ .elem "Title" [] (some "J Med") []
                , .elem "JournalIssue" [] none
                    [ .elem "Volume" [] (some "7") []
                    , .elem "Issue" [] (some "2") [] ] ]
            , .elem "Pagination" [] none [.elem "MedlinePgn" [] (some "1-10") []]
            , .elem "ELocationID" [("EIdType", "doi")] (some "10.1/x") []
            , .elem "AuthorList" [] none
                [ .elem "Author" [] none
                    [ .elem "LastName" [] (some "Doe") []
                    , .elem "Initials" [] (some "JP") [] ] ] ]
        , .elem "PubDate" [] none [.elem "Year" [] (some "2021") []] ] ]

/-- C5 witness: a concrete article without an `Abstract` element; the
abstract defaults to "N/A" while the present fields are extracted. -/
theorem missing_fields_default_witness :
    (formatArticle sampleArticle).abstract = "N/A" ∧
    (formatArticle sampleArticle).title = "A Title" ∧
    (formatArticle sampleArticle).source = "J Med" ∧
    (formatArticle sampleArticle).doi = "10.1/x" ∧
    (formatArticle sampleArticle).pubmed_id = "12345" := by
  have h := missing_fields_default sampleArticle
  exact ⟨h.1 rfl, rfl, rfl, rfl, rfl⟩

/-- C6: the authors field is exactly the document-order list of Author
elements, each mapped to last name and initials joined by one space and
stripped; when both parts are empty the entry is the empty string (still
appended), and repeated names are kept. -/
theorem authors_field_structure (a : XML) :
    (formatArticle a).authors =
      (findall a authorPath).map
        (fun author =>
          pyStrip
            (findtextChild author "LastName" "" ++ " " ++
              findtextChild author "Initials" "")) ∧
    (∀ author, findtextChild author "LastName" "" = "" →
      findtextChild author "Initials" "" = "" →
      pyStrip
        (findtextChild author "LastName" "" ++ " " ++
          findtextChild author "Initials" "") = "") := by
  constructor
  · simp [formatArticle, foldl_push_eq_map]
  · intro author h1 h2
    rw [h1, h2]
    rfl

def emptyAuthorsArticle : XML :=
  .elem "PubmedArticle" [] none
    [.elem "AuthorList" [] none
      [.elem "Author" [] none [], .elem "Author" [] none []]]

/-- C6 witness: two Author elements with neither last name nor initials
give two empty-string entries, undeduplicated. -/
theorem authors_field_structure_witness :
    (formatArticle emptyAuthorsArticle).authors = ["", ""] := by
  have h := authors_field_structure emptyAuthorsArticle
  rw [h.1]
  rfl

/-- C7: the link is always the fixed base URL with the extracted id
interpolated; when the id path is absent this interpolates the "N/A"
marker itself. -/
theorem link_interpolated (a : XML) :
    (formatArticle a).link =
      "https://pubmed.ncbi.nlm.nih.gov/" ++ (formatArticle a).pubmed_id ∧
    (findall a pmidPath = [] →
      (formatArticle a).pubmed_id = "N/A" ∧
      (formatArticle a).link = "https://pubmed.ncbi.nlm.nih.gov/" ++ "N/A") := by
  constructor
  · simp [formatArticle]
  · intro h
    constructor <;> simp [formatArticle, findtext, h]

/-- C7 witness: an article with no PMID anywhere still gets the link with
"N/A" interpolated. -/
theorem link_interpolated_witness :
    (formatArticle (XML.elem "PubmedArticle" [] none [])).link =
      "https://pubmed.ncbi.nlm.nih.gov/N/A" := by
  have h := (link_interpolated (XML.elem "PubmedArticle" [] none [])).2 rfl
  rw [h.2]
  rfl

/-- C8: parsing is a pure function of the fetch body — two parses of the
same content always produce identical record sequences. -/
theorem parse_deterministic (content : FetchBody)
    (r₁ r₂ : Except String (List ArticleRecord))
    (h₁ : parse_article_details content = r₁)
    (h₂ : parse_article_details content = r₂) : r₁ = r₂ :=
  h₁.symm.trans h₂

/-- C8 witness: two parses of one concrete document agree. -/
theorem parse_deterministic_witness :
    (Except.ok [formatArticle sampleArticle] : Except String (List ArticleRecord)) =
      Except.ok [formatArticle sampleArticle] :=
  parse_deterministic (.wellFormed (.elem "Set" [] none [sampleArticle]))
    (.ok [formatArticle sampleArticle]) (.ok [formatArticle sampleArticle]) rfl rfl

/-- C9: every envelope `search_pubmed` returns is either the success shape
(success true, no error key, a total-results key) or the failure shape
(success false, an error key, empty results, no total-results key). -/
theorem envelope_two_shapes (remote : Remote) (kw au : List String) (n : Int) :
    ((search_pubmed remote kw au n).1.success = true ∧
      (search_pubmed remote kw au n).1.error = none ∧
      ∃ t, (search_pubmed remote kw au n).1.total_results = some t) ∨
    ((search_pubmed remote kw au n).1.success = false ∧
      (∃ e, (search_pubmed remote kw au n).1.error = some e) ∧
      (search_pubmed remote kw au n).1.results = [] ∧
      (search_pubmed remote kw au n).1.total_results = none) := by
  by_cases hq : buildQuery kw au = ""
  · right
    simp [search_pubmed, hq]
  · rcases hs : remote.esearchResult (buildQuery kw au) n with e | pmids
    · right
      simp [search_pubmed, hq, hs]
    · rcases hfp : format_paper_details remote pmids with e | recs
      · right
        simp [search_pubmed, hq, hs, hfp]
      · left
        simp [search_pubmed, hq, hs, hfp]

/-- C10: an article with no Author elements yields the empty author list,
not the "N/A" marker. -/
theorem no_authors_empty_list (a : XML) (h : findall a authorPath = []) :
    (formatArticle a).authors = ([] : List String) := by
  simp [formatArticle, h]

/-- C10 witness: a childless article element has an empty author list. -/
theorem no_authors_empty_list_witness :
    (formatArticle (XML.elem "PubmedArticle" [] none
      [.elem "MedlineCitation" [] none [.elem "PMID" [] (some "9") []]])).authors =
      ([] : List String) :=
  no_authors_empty_list
    (XML.elem "PubmedArticle" [] none
      [.elem "MedlineCitation" [] none [.elem "PMID" [] (some "9") []]]) rfl
